import Mathlib

/-!
Shallow embedding of the JWT authentication core of the repository
(binar-wshop-11): `src/utils/jwt.js`, `src/models/Token.js`,
`src/models/User.js`, `src/middleware/auth.js`,
`src/controllers/authController.js` and the cleanup sweeper of
`src/server.js`.

Modelling conventions:
* A JWT is modelled as an inductive value: either a token signed over a
  payload with a secret, or a malformed string.  `jwt.sign` is
  deterministic (same payload, same issued-at second, same secret give
  the byte-identical token string), so equality of `Jwt` values models
  equality of the literal token strings.
* Time is in whole epoch seconds (`Math.floor(Date.now() / 1000)`), the
  unit of all JWT claims.  Each handler takes a `tSign` instant (the
  clock reads used while minting/verifying tokens) and a `tRead` instant
  (the `Date.now()` read in the `expiresIn` computation); the clock is
  monotone, so `tSign ≤ tRead`.
* The SQLite tables are lists in insertion (rowid) order; `getOne`
  (`SELECT ... WHERE token = ?`) is `List.find?`, `INSERT` appends,
  `DELETE WHERE token = ?` filters.  `uuidv4` is a fresh-id counter.
* `expiresAt` columns hold the strings the source writes:
  `Date.prototype.toISOString` output (`YYYY-MM-DDTHH:MM:SS.000Z`, the
  model has whole-second dates).  The sweeper compares them with
  SQLite's `datetime("now")` string (`YYYY-MM-DD HH:MM:SS`) under
  SQLite's binary text collation, i.e. lexicographic order on the
  strings, exactly as the source's `expiresAt < datetime("now")` does.
-/

/-- Claims carried by both token kinds (`jwt.sign` adds `iat`, and the
`expiresIn` option adds `exp = iat + duration`). -/
structure Payload where
  userId : String
  email : String
  iat : Nat
  exp : Nat
deriving DecidableEq, Repr

/-- A JWT string: either an honestly signed token (payload plus signing
secret) or a malformed/forged string. -/
inductive Jwt where
  | signed (payload : Payload) (secret : String) : Jwt
  | malformed (s : String) : Jwt
deriving DecidableEq, Repr

/-- The two error kinds `jsonwebtoken`'s `verify` distinguishes by the
error's `name` field: `TokenExpiredError` and every other
`JsonWebTokenError`. -/
inductive JwtError where
  | tokenExpired : JwtError
  | jsonWebToken : JwtError
deriving DecidableEq, Repr

/-- `jwt.verify(token, secret)`: signature is checked first (wrong
secret or malformed input is a `JsonWebTokenError`), then expiry
(`TokenExpiredError` when the clock is at or past `exp`). -/
def verifyJwt (t : Jwt) (secret : String) (now : Nat) : Except JwtError Payload :=
  match t with
  | .malformed _ => .error .jsonWebToken
  | .signed p s =>
    if s = secret then
      if p.exp ≤ now then .error .tokenExpired else .ok p
    else .error .jsonWebToken

/-- `jwt.decode(token)`: reads the payload without checking the
signature; `null` on a malformed string. -/
def decodeToken (t : Jwt) : Option Payload :=
  match t with
  | .signed p _ => some p
  | .malformed _ => none

/-- Environment configuration consumed by `src/utils/jwt.js`:
the two signing secrets and the two durations (defaults `15m`/`7d`). -/
structure Config where
  jwtSecret : String
  jwtRefreshSecret : String
  accessDuration : Nat
  refreshDuration : Nat
deriving DecidableEq, Repr

/-- `generateAccessToken(payload)` of `src/utils/jwt.js`, minted at
clock second `now`. -/
def generateAccessToken (cfg : Config) (userId email : String) (now : Nat) : Jwt :=
  .signed ⟨userId, email, now, now + cfg.accessDuration⟩ cfg.jwtSecret

/-- `generateRefreshToken(payload)` of `src/utils/jwt.js`, minted at
clock second `now`. -/
def generateRefreshToken (cfg : Config) (userId email : String) (now : Nat) : Jwt :=
  .signed ⟨userId, email, now, now + cfg.refreshDuration⟩ cfg.jwtRefreshSecret

/-- `getTokenExpiration(expiresIn)` of `src/utils/jwt.js`: signs a dummy
token with the given duration and decodes its `exp`, i.e. the current
second plus the duration (the throw branch is unreachable because
`expiresIn` always sets `exp`). -/
def getTokenExpiration (duration now : Nat) : Nat :=
  now + duration

/-- Civil date from days since 1970-01-01 (proleptic Gregorian),
returning (year, month, day). -/
def civilFromDays (z : Nat) : Nat × Nat × Nat :=
  let z := z + 719468
  let era := z / 146097
  let doe := z % 146097
  let yoe := (doe - doe / 1460 + doe / 36524 - doe / 146096) / 365
  let y := yoe + era * 400
  let doy := doe - (365 * yoe + yoe / 4 - yoe / 100)
  let mp := (5 * doy + 2) / 153
  let d := doy - (153 * mp + 2) / 5 + 1
  let m := if mp < 10 then mp + 3 else mp - 9
  (if m ≤ 2 then y + 1 else y, m, d)

/-- Zero-pad a numeral to two digits. -/
def pad2 (n : Nat) : String :=
  if n < 10 then "0" ++ toString n else toString n

/-- Zero-pad a numeral to four digits. -/
def pad4 (n : Nat) : String :=
  if n < 10 then "000" ++ toString n
  else if n < 100 then "00" ++ toString n
  else if n < 1000 then "0" ++ toString n
  else toString n

/-- The date/time-of-day fields of an epoch-seconds instant. -/
def dateParts (t : Nat) : Nat × Nat × Nat × Nat × Nat × Nat :=
  let ymd := civilFromDays (t / 86400)
  let secs := t % 86400
  (ymd.1, ymd.2.1, ymd.2.2, secs / 3600, secs % 3600 / 60, secs % 60)

/-- `new Date(t * 1000).toISOString()` for a whole-second instant:
the `YYYY-MM-DDTHH:MM:SS.000Z` string the source stores in
`expiresAt` columns. -/
def isoString (t : Nat) : String :=
  let p := dateParts t
  pad4 p.1 ++ "-" ++ pad2 p.2.1 ++ "-" ++ pad2 p.2.2.1 ++ "T" ++
    pad2 p.2.2.2.1 ++ ":" ++ pad2 p.2.2.2.2.1 ++ ":" ++ pad2 p.2.2.2.2.2 ++ ".000Z"

/-- SQLite's `datetime("now")` string: `YYYY-MM-DD HH:MM:SS` (space
separator, no fractional seconds, no zone suffix). -/
def sqliteNowString (t : Nat) : String :=
  let p := dateParts t
  pad4 p.1 ++ "-" ++ pad2 p.2.1 ++ "-" ++ pad2 p.2.2.1 ++ " " ++
    pad2 p.2.2.2.1 ++ ":" ++ pad2 p.2.2.2.2.1 ++ ":" ++ pad2 p.2.2.2.2.2

/-- Lexicographic order on character lists by codepoint.  For the
ASCII-only strings the ledger stores, this is exactly the byte order
(`memcmp`) SQLite's BINARY collation uses on TEXT values. -/
def charListLtB : List Char → List Char → Bool
  | [], [] => false
  | [], _ :: _ => true
  | _ :: _, [] => false
  | a :: as, b :: bs =>
    if a.toNat < b.toNat then true
    else if a.toNat = b.toNat then charListLtB as bs
    else false

/-- SQLite's `<` on two TEXT values under the default BINARY
collation. -/
def sqlTextLt (a b : String) : Bool := charListLtB a.data b.data

/-- A row of the `users` table (`src/config/database.js`). -/
structure DbUser where
  id : String
  email : String
  password : String
  firstName : String
  lastName : String
  phoneNumber : Option String
  dateOfBirth : Option String
  profilePicture : Option String
  createdAt : String
  updatedAt : String
deriving DecidableEq, Repr

/-- A user as returned by `User.formatUser`: every column except
`password`. -/
structure FormattedUser where
  id : String
  email : String
  firstName : String
  lastName : String
  phoneNumber : Option String
  dateOfBirth : Option String
  profilePicture : Option String
  createdAt : String
  updatedAt : String
deriving DecidableEq, Repr

/-- `User.formatUser(user)`: strips the `password` field. -/
def formatUser (u : DbUser) : FormattedUser :=
  ⟨u.id, u.email, u.firstName, u.lastName, u.phoneNumber, u.dateOfBirth,
    u.profilePicture, u.createdAt, u.updatedAt⟩

/-- A row of the `refresh_tokens` table.  `id` models the `uuidv4()`
value; `expiresAt` is the stored ISO string. -/
structure RefreshTokenRecord where
  id : Nat
  userId : String
  token : Jwt
  expiresAt : String
deriving DecidableEq, Repr

/-- A row of the `token_blacklist` table. -/
structure BlacklistEntry where
  id : Nat
  token : Jwt
  expiresAt : String
deriving DecidableEq, Repr

/-- The SQLite database: the three tables in rowid order, plus the
fresh-id source modelling `uuidv4`. -/
structure Store where
  users : List DbUser
  refreshTokens : List RefreshTokenRecord
  blacklist : List BlacklistEntry
  freshId : Nat
deriving DecidableEq, Repr

/-- `User.findById(id)`: `SELECT * FROM users WHERE id = ?` via
`getOne` (first matching row). -/
def findById (s : Store) (id : String) : Option DbUser :=
  s.users.find? fun u => decide (u.id = id)

/-- `Token.createRefreshToken(userId, token, expiresAt)`: inserts a new
row with a fresh id. -/
def createRefreshToken (s : Store) (userId : String) (token : Jwt)
    (expiresAt : String) : Store :=
  { s with refreshTokens := s.refreshTokens ++ [⟨s.freshId, userId, token, expiresAt⟩],
           freshId := s.freshId + 1 }

/-- `Token.findRefreshToken(token)`: `SELECT * FROM refresh_tokens
WHERE token = ?` via `getOne`. -/
def findRefreshToken (s : Store) (token : Jwt) : Option RefreshTokenRecord :=
  s.refreshTokens.find? fun r => decide (r.token = token)

/-- `Token.deleteRefreshToken(token)`: `DELETE FROM refresh_tokens
WHERE token = ?` (removes every row with that exact value). -/
def deleteRefreshToken (s : Store) (token : Jwt) : Store :=
  { s with refreshTokens := s.refreshTokens.filter fun r => !(decide (r.token = token)) }

/-- `Token.blacklistToken(token, expiresAt)`: inserts a blacklist row
with a fresh id. -/
def blacklistToken (s : Store) (token : Jwt) (expiresAt : String) : Store :=
  { s with blacklist := s.blacklist ++ [⟨s.freshId, token, expiresAt⟩],
           freshId := s.freshId + 1 }

/-- `Token.isTokenBlacklisted(token)`: `!!` of `SELECT * FROM
token_blacklist WHERE token = ?` — membership by the literal token
value only, `expiresAt` is never consulted. -/
def isTokenBlacklisted (s : Store) (token : Jwt) : Bool :=
  (s.blacklist.find? fun e => decide (e.token = token)).isSome

/-- `Token.cleanupExpiredTokens()`: `DELETE FROM token_blacklist WHERE
expiresAt < datetime("now")` and the same for `refresh_tokens`; the
stored ISO strings are compared with the SQLite datetime string under
binary (lexicographic) text collation. -/
def cleanupExpiredTokens (s : Store) (now : Nat) : Store :=
  { s with
    blacklist := s.blacklist.filter fun e => !(sqlTextLt e.expiresAt (sqliteNowString now)),
    refreshTokens := s.refreshTokens.filter fun r => !(sqlTextLt r.expiresAt (sqliteNowString now)) }

/-- Outcome of the `authenticate` middleware (`src/middleware/auth.js`)
for a presented bearer token, one constructor per distinct 401 error
code plus success (which sets `req.user` and `req.token`). -/
inductive AuthResult where
  | blacklisted : AuthResult
  | expired : AuthResult
  | invalidToken : AuthResult
  | userNotFound : AuthResult
  | success (user : FormattedUser) (token : Jwt) : AuthResult
deriving DecidableEq, Repr

/-- The `authenticate` middleware of `src/middleware/auth.js`, from the
point where the bearer token has been extracted from the header (lines
20-40): blacklist check first, then `verifyAccessToken`, then user
lookup.  The missing/malformed `Authorization` header path (lines
12-18, a distinct `UNAUTHORIZED` response) happens before a token value
exists and is not part of the per-token outcome. -/
def authenticate (cfg : Config) (s : Store) (token : Jwt) (now : Nat) : AuthResult :=
  if isTokenBlacklisted s token then .blacklisted
  else
    match verifyJwt token cfg.jwtSecret now with
    | .error .tokenExpired => .expired
    | .error .jsonWebToken => .invalidToken
    | .ok decoded =>
      match findById s decoded.userId with
      | none => .userNotFound
      | some user => .success (formatUser user) token

/-- The success payload of `login` (`data.user` and `data.tokens`). -/
structure LoginData where
  user : FormattedUser
  accessToken : Jwt
  refreshToken : Jwt
  expiresIn : Int
deriving DecidableEq, Repr

/-- The `login` handler of `src/controllers/authController.js`, lines
37-62: the part after the credential check succeeded for `user` (the
row `User.findByEmail` returned).  `tSign` is the clock second at which
the two tokens are minted and `getTokenExpiration` runs; `tRead` is the
`Date.now()` read in the `expiresIn` computation.  The `none` branch of
the decode is unreachable (a freshly signed token always decodes); in
the source it would throw into the catch-all 500 handler. -/
def login (cfg : Config) (s : Store) (user : DbUser) (tSign tRead : Nat) :
    Store × LoginData :=
  let accessToken := generateAccessToken cfg user.id user.email tSign
  let refreshToken := generateRefreshToken cfg user.id user.email tSign
  let refreshTokenExpiration := getTokenExpiration cfg.refreshDuration tSign
  let s1 := createRefreshToken s user.id refreshToken (isoString refreshTokenExpiration)
  let expiresIn : Int :=
    match decodeToken accessToken with
    | some p => (p.exp : Int) - (tRead : Int)
    | none => 0
  (s1, ⟨formatUser user, accessToken, refreshToken, expiresIn⟩)

/-- Outcome of the `logout` handler: success, or the catch-all 500
(reached only when the authenticated access token fails to decode). -/
inductive LogoutResult where
  | success : LogoutResult
  | internalError : LogoutResult
deriving DecidableEq, Repr

/-- The `logout` handler of `src/controllers/authController.js`, lines
75-102.  `accessToken` is `req.token` (the token that authenticated the
call), `callerUserId` is `req.user.id`, `refreshTokenOpt` models the
truthiness test `if (refreshToken)` on the request body.  The access
token is blacklisted unconditionally with `expiresAt` from its decoded
`exp`; the refresh token is deleted and then best-effort blacklisted
only when its ledger row exists and belongs to the caller, with a
verify failure swallowed after the delete. -/
def logout (cfg : Config) (s : Store) (accessToken : Jwt) (callerUserId : String)
    (refreshTokenOpt : Option Jwt) (now : Nat) : Store × LogoutResult :=
  match decodeToken accessToken with
  | none => (s, .internalError)
  | some accessDecoded =>
    let s1 := blacklistToken s accessToken (isoString accessDecoded.exp)
    match refreshTokenOpt with
    | none => (s1, .success)
    | some refreshToken =>
      match findRefreshToken s1 refreshToken with
      | none => (s1, .success)
      | some refreshTokenData =>
        if refreshTokenData.userId = callerUserId then
          let s2 := deleteRefreshToken s1 refreshToken
          match verifyJwt refreshToken cfg.jwtRefreshSecret now with
          | .ok refreshDecoded =>
            (blacklistToken s2 refreshToken (isoString refreshDecoded.exp), .success)
          | .error _ => (s2, .success)
        else (s1, .success)

/-- Outcome of the `refreshAccessToken` handler, one constructor per
401 error code plus success (`data.accessToken`, `data.expiresIn`). -/
inductive RefreshResult where
  | blacklisted : RefreshResult
  | invalidToken : RefreshResult
  | expired : RefreshResult
  | userNotFound : RefreshResult
  | success (accessToken : Jwt) (expiresIn : Int) : RefreshResult
deriving DecidableEq, Repr

/-- The `refreshAccessToken` handler of
`src/controllers/authController.js`, lines 115-201: blacklist check,
then ledger lookup, then `verifyRefreshToken` (an expiry failure
deletes the stale ledger row, any other failure does not), then user
lookup, then minting of a new access token with no store write. -/
def refreshAccessToken (cfg : Config) (s : Store) (refreshToken : Jwt)
    (tSign tRead : Nat) : Store × RefreshResult :=
  if isTokenBlacklisted s refreshToken then (s, .blacklisted)
  else
    match findRefreshToken s refreshToken with
    | none => (s, .invalidToken)
    | some _ =>
      match verifyJwt refreshToken cfg.jwtRefreshSecret tSign with
      | .ok decoded =>
        match findById s decoded.userId with
        | none => (s, .userNotFound)
        | some user =>
          let newAccessToken := generateAccessToken cfg user.id user.email tSign
          let expiresIn : Int :=
            match decodeToken newAccessToken with
            | some p => (p.exp : Int) - (tRead : Int)
            | none => 0
          (s, .success newAccessToken expiresIn)
      | .error .tokenExpired => (deleteRefreshToken s refreshToken, .expired)
      | .error .jsonWebToken => (s, .invalidToken)

/-- The ledger invariant of the spec's data model: at most one
`refresh_tokens` row per literal token value. -/
def atMostOnePerToken (l : List RefreshTokenRecord) : Prop :=
  l.Pairwise fun a b => a.token ≠ b.token

instance (l : List RefreshTokenRecord) : Decidable (atMostOnePerToken l) := by
  unfold atMostOnePerToken
  infer_instance

/-! ### Small equations about the store operations -/

@[simp]
theorem users_blacklistToken (s : Store) (t : Jwt) (e : String) :
    (blacklistToken s t e).users = s.users := rfl

@[simp]
theorem refreshTokens_blacklistToken (s : Store) (t : Jwt) (e : String) :
    (blacklistToken s t e).refreshTokens = s.refreshTokens := rfl

@[simp]
theorem blacklist_blacklistToken (s : Store) (t : Jwt) (e : String) :
    (blacklistToken s t e).blacklist = s.blacklist ++ [⟨s.freshId, t, e⟩] := rfl

@[simp]
theorem users_deleteRefreshToken (s : Store) (t : Jwt) :
    (deleteRefreshToken s t).users = s.users := rfl

@[simp]
theorem blacklist_deleteRefreshToken (s : Store) (t : Jwt) :
    (deleteRefreshToken s t).blacklist = s.blacklist := rfl

@[simp]
theorem users_createRefreshToken (s : Store) (uid : String) (t : Jwt) (e : String) :
    (createRefreshToken s uid t e).users = s.users := rfl

@[simp]
theorem blacklist_createRefreshToken (s : Store) (uid : String) (t : Jwt) (e : String) :
    (createRefreshToken s uid t e).blacklist = s.blacklist := rfl

@[simp]
theorem findRefreshToken_blacklistToken (s : Store) (t t2 : Jwt) (e : String) :
    findRefreshToken (blacklistToken s t e) t2 = findRefreshToken s t2 := rfl

@[simp]
theorem findById_blacklistToken (s : Store) (t : Jwt) (e : String) (uid : String) :
    findById (blacklistToken s t e) uid = findById s uid := rfl

@[simp]
theorem isTokenBlacklisted_createRefreshToken (s : Store) (uid : String) (t t2 : Jwt)
    (e : String) : isTokenBlacklisted (createRefreshToken s uid t e) t2 =
      isTokenBlacklisted s t2 := rfl

@[simp]
theorem findById_createRefreshToken (s : Store) (uid : String) (t : Jwt) (e : String)
    (uid2 : String) : findById (createRefreshToken s uid t e) uid2 = findById s uid2 := rfl

theorem isTokenBlacklisted_of_mem (s : Store) (e : BlacklistEntry) (t : Jwt)
    (he : e ∈ s.blacklist) (ht : e.token = t) : isTokenBlacklisted s t = true := by
  unfold isTokenBlacklisted
  rw [Option.isSome_iff_exists]
  have : (s.blacklist.find? fun x => decide (x.token = t)).isSome := by
    rw [List.find?_isSome]
    exact ⟨e, he, by rw [ht]; simp⟩
  rwa [Option.isSome_iff_exists] at this

theorem authenticate_of_blacklisted (cfg : Config) (s : Store) (t : Jwt) (now : Nat)
    (h : isTokenBlacklisted s t = true) : authenticate cfg s t now = .blacklisted := by
  unfold authenticate
  rw [h]
  simp

theorem refreshAccessToken_of_blacklisted (cfg : Config) (s : Store) (t : Jwt)
    (tS tR : Nat) (h : isTokenBlacklisted s t = true) :
    refreshAccessToken cfg s t tS tR = (s, .blacklisted) := by
  unfold refreshAccessToken
  rw [h]
  simp

theorem refresh_eq_of_unknown (cfg : Config) (s : Store) (rt : Jwt) (tS tR : Nat)
    (h1 : isTokenBlacklisted s rt = false) (h2 : findRefreshToken s rt = none) :
    refreshAccessToken cfg s rt tS tR = (s, .invalidToken) := by
  unfold refreshAccessToken
  simp [h1, h2]

theorem refresh_eq_of_expired (cfg : Config) (s : Store) (rt : Jwt) (tS tR : Nat)
    (r : RefreshTokenRecord) (h1 : isTokenBlacklisted s rt = false)
    (h2 : findRefreshToken s rt = some r)
    (h3 : verifyJwt rt cfg.jwtRefreshSecret tS = .error .tokenExpired) :
    refreshAccessToken cfg s rt tS tR = (deleteRefreshToken s rt, .expired) := by
  unfold refreshAccessToken
  simp [h1, h2, h3]

theorem refresh_eq_of_invalid (cfg : Config) (s : Store) (rt : Jwt) (tS tR : Nat)
    (r : RefreshTokenRecord) (h1 : isTokenBlacklisted s rt = false)
    (h2 : findRefreshToken s rt = some r)
    (h3 : verifyJwt rt cfg.jwtRefreshSecret tS = .error .jsonWebToken) :
    refreshAccessToken cfg s rt tS tR = (s, .invalidToken) := by
  unfold refreshAccessToken
  simp [h1, h2, h3]

theorem refresh_eq_of_no_user (cfg : Config) (s : Store) (rt : Jwt) (tS tR : Nat)
    (r : RefreshTokenRecord) (p : Payload) (h1 : isTokenBlacklisted s rt = false)
    (h2 : findRefreshToken s rt = some r)
    (h3 : verifyJwt rt cfg.jwtRefreshSecret tS = .ok p)
    (h4 : findById s p.userId = none) :
    refreshAccessToken cfg s rt tS tR = (s, .userNotFound) := by
  unfold refreshAccessToken
  simp [h1, h2, h3, h4]

theorem refresh_eq_of_success (cfg : Config) (s : Store) (rt : Jwt) (tS tR : Nat)
    (r : RefreshTokenRecord) (p : Payload) (u : DbUser)
    (h1 : isTokenBlacklisted s rt = false) (h2 : findRefreshToken s rt = some r)
    (h3 : verifyJwt rt cfg.jwtRefreshSecret tS = .ok p)
    (h4 : findById s p.userId = some u) :
    refreshAccessToken cfg s rt tS tR =
      (s, .success (generateAccessToken cfg u.id u.email tS)
        (((tS + cfg.accessDuration : Nat) : Int) - (tR : Int))) := by
  unfold refreshAccessToken
  simp [h1, h2, h3, h4, generateAccessToken, decodeToken]

/-- After a completed logout, the entry blacklisting the authenticating
access token is a row of the resulting store's blacklist table. -/
theorem logout_blacklist_mem (cfg : Config) (s : Store) (A : Jwt) (uid : String)
    (rtOpt : Option Jwt) (now : Nat) (p : Payload) (hd : decodeToken A = some p) :
    (⟨s.freshId, A, isoString p.exp⟩ : BlacklistEntry) ∈
      ((logout cfg s A uid rtOpt now).1).blacklist := by
  unfold logout
  rw [hd]
  cases rtOpt with
  | none => simp
  | some rt =>
    cases hf : findRefreshToken s rt with
    | none => simp [hf]
    | some rec2 =>
      by_cases hu : rec2.userId = uid
      · cases hv : verifyJwt rt cfg.jwtRefreshSecret now with
        | ok q => simp [hf, hu, hv]
        | error q => simp [hf, hu, hv]
      · simp [hf, hu]

/-! ### Claim C1 -/

/-- C1: once `logout` has run to completion with access token `A` as the
authenticating token (revoke blacklists `A` unconditionally), any
subsequent `authenticateAccessToken(A)` — at any later instant —
returns the `BlacklistedToken` outcome, never `InvalidToken`,
`ExpiredToken` or success, because the blacklist membership check runs
before signature/expiry verification. -/
theorem c1_revoked_access_token_is_blacklisted
    (cfg : Config) (s s2 : Store) (A : Jwt) (uid : String)
    (rtOpt : Option Jwt) (now now2 : Nat)
    (h : logout cfg s A uid rtOpt now = (s2, .success)) :
    authenticate cfg s2 A now2 = .blacklisted := by
  have hs2 : (logout cfg s A uid rtOpt now).1 = s2 := by rw [h]
  cases hd : decodeToken A with
  | none =>
    exfalso
    unfold logout at h
    rw [hd] at h
    exact absurd (congrArg Prod.snd h) (by simp)
  | some p =>
    have hmem := logout_blacklist_mem cfg s A uid rtOpt now p hd
    rw [hs2] at hmem
    exact authenticate_of_blacklisted cfg s2 A now2
      (isTokenBlacklisted_of_mem s2 _ A hmem rfl)

/-- Fixture: the environment configuration with the default durations
(15 minutes, 7 days). -/
def cfg0 : Config := ⟨"access-secret", "refresh-secret", 900, 604800⟩

/-- Fixture: the seeded test user. -/
def u0 : DbUser :=
  ⟨"u1", "a@b.com", "hash", "John", "Doe", none, none, none,
    "2024-01-15T10:30:00.000Z", "2024-01-15T10:30:00.000Z"⟩

/-- Fixture: a store holding only the seeded user. -/
def s0 : Store := ⟨[u0], [], [], 0⟩

/-- Witness for C1: a concrete login at second 1000 followed by logout
with both tokens; authenticating the access token afterwards yields the
blacklisted outcome. -/
theorem c1_witness :
    authenticate cfg0
      (logout cfg0 (login cfg0 s0 u0 1000 1000).1
        (login cfg0 s0 u0 1000 1000).2.accessToken "u1"
        (some (login cfg0 s0 u0 1000 1000).2.refreshToken) 1000).1
      (login cfg0 s0 u0 1000 1000).2.accessToken 1001 = .blacklisted :=
  c1_revoked_access_token_is_blacklisted cfg0 (login cfg0 s0 u0 1000 1000).1
    ((logout cfg0 (login cfg0 s0 u0 1000 1000).1
        (login cfg0 s0 u0 1000 1000).2.accessToken "u1"
        (some (login cfg0 s0 u0 1000 1000).2.refreshToken) 1000).1)
    (login cfg0 s0 u0 1000 1000).2.accessToken "u1"
    (some (login cfg0 s0 u0 1000 1000).2.refreshToken) 1000 1001 (by decide)

/-! ### Claim C10 -/

/-- C10: the blacklist membership check compares only the literal token
value and never reads the entry's `expiresAt`: any token with a row in
the blacklist table — the row's `expiresAt` is arbitrary, in particular
it may already lie in the past — is rejected by both
`authenticateAccessToken` and `refresh` with the `BlacklistedToken`
outcome, and `refresh` leaves the store unchanged. -/
theorem c10_blacklist_check_ignores_expiry
    (cfg : Config) (s : Store) (t : Jwt) (e : BlacklistEntry)
    (he : e ∈ s.blacklist) (ht : e.token = t) (now tS tR : Nat) :
    authenticate cfg s t now = .blacklisted ∧
    refreshAccessToken cfg s t tS tR = (s, .blacklisted) := by
  have hb := isTokenBlacklisted_of_mem s e t he ht
  exact ⟨authenticate_of_blacklisted cfg s t now hb,
    refreshAccessToken_of_blacklisted cfg s t tS tR hb⟩

/-- Fixture: a store whose blacklist holds one entry whose `expiresAt`
(second 500, rendered as the stored ISO string) is already in the past
at second 600. -/
def sStale : Store :=
  ⟨[u0], [], [⟨0, Jwt.signed ⟨"u1", "a@b.com", 100, 500⟩ "access-secret", isoString 500⟩], 1⟩

/-- Witness for C10: the stale-but-unswept blacklist row of `sStale`
still forces the blacklisted outcome on both operations at second
600. -/
theorem c10_witness :
    authenticate cfg0 sStale (Jwt.signed ⟨"u1", "a@b.com", 100, 500⟩ "access-secret") 600
        = .blacklisted ∧
    refreshAccessToken cfg0 sStale (Jwt.signed ⟨"u1", "a@b.com", 100, 500⟩ "access-secret")
        600 600 = (sStale, .blacklisted) :=
  c10_blacklist_check_ignores_expiry cfg0 sStale
    (Jwt.signed ⟨"u1", "a@b.com", 100, 500⟩ "access-secret")
    ⟨0, Jwt.signed ⟨"u1", "a@b.com", 100, 500⟩ "access-secret", isoString 500⟩
    (by decide) rfl 600 600 600

/-- Verification success characterized: the token is signed with the
queried secret and its expiry lies strictly after the clock. -/
theorem verifyJwt_ok_iff (t : Jwt) (secret : String) (now : Nat) (p : Payload) :
    verifyJwt t secret now = .ok p ↔ t = .signed p secret ∧ now < p.exp := by
  constructor
  · intro h
    cases t with
    | malformed s => simp [verifyJwt] at h
    | signed q sec =>
      simp only [verifyJwt] at h
      by_cases hs : sec = secret
      · rw [if_pos hs] at h
        by_cases he : q.exp ≤ now
        · rw [if_pos he] at h
          exact absurd h (by simp)
        · rw [if_neg he] at h
          have hq : q = p := by injection h
          subst hq
          subst hs
          exact ⟨rfl, by omega⟩
      · rw [if_neg hs] at h
        exact absurd h (by simp)
  · rintro ⟨rfl, he⟩
    have h2 : ¬ (p.exp ≤ now) := by omega
    simp [verifyJwt, h2]

/-! ### Claim C3 -/

/-- C3: `refresh` applies its checks in the order blacklist membership,
ledger record existence, signature/expiry verification, user existence.
An expiry-specific verification failure deletes every ledger row with
that exact token value and answers `ExpiredToken`; any other
verification failure answers `InvalidToken` and leaves the store — and
hence the ledger record — untouched. -/
theorem c3_refresh_check_order (cfg : Config) (s : Store) (rt : Jwt) (tS tR : Nat) :
    (isTokenBlacklisted s rt = true →
      refreshAccessToken cfg s rt tS tR = (s, .blacklisted)) ∧
    (isTokenBlacklisted s rt = false → findRefreshToken s rt = none →
      refreshAccessToken cfg s rt tS tR = (s, .invalidToken)) ∧
    (∀ r, isTokenBlacklisted s rt = false → findRefreshToken s rt = some r →
      verifyJwt rt cfg.jwtRefreshSecret tS = .error .tokenExpired →
      refreshAccessToken cfg s rt tS tR = (deleteRefreshToken s rt, .expired)) ∧
    (∀ r, isTokenBlacklisted s rt = false → findRefreshToken s rt = some r →
      verifyJwt rt cfg.jwtRefreshSecret tS = .error .jsonWebToken →
      refreshAccessToken cfg s rt tS tR = (s, .invalidToken)) ∧
    (∀ r p, isTokenBlacklisted s rt = false → findRefreshToken s rt = some r →
      verifyJwt rt cfg.jwtRefreshSecret tS = .ok p → findById s p.userId = none →
      refreshAccessToken cfg s rt tS tR = (s, .userNotFound)) := by
  refine ⟨?_, ?_, ?_, ?_, ?_⟩
  · intro h1
    unfold refreshAccessToken
    simp [h1]
  · intro h1 h2
    unfold refreshAccessToken
    simp [h1, h2]
  · intro r h1 h2 h3
    unfold refreshAccessToken
    simp [h1, h2, h3]
  · intro r h1 h2 h3
    unfold refreshAccessToken
    simp [h1, h2, h3]
  · intro r p h1 h2 h3 h4
    unfold refreshAccessToken
    simp [h1, h2, h3, h4]

/-- Fixture: a refresh token for the seeded user that expired at second
500, with a live ledger row and an empty blacklist. -/
def rtExpired : Jwt := Jwt.signed ⟨"u1", "a@b.com", 0, 500⟩ "refresh-secret"

/-- Fixture: a store with the seeded user and the ledger row for
`rtExpired`. -/
def sExpired : Store := ⟨[u0], [⟨0, "u1", rtExpired, isoString 500⟩], [], 1⟩

/-- Witness for C3: refreshing with the expired `rtExpired` at second
600 deletes its ledger row and answers the expired outcome. -/
theorem c3_witness :
    refreshAccessToken cfg0 sExpired rtExpired 600 600 =
      (deleteRefreshToken sExpired rtExpired, .expired) :=
  (c3_refresh_check_order cfg0 sExpired rtExpired 600 600).2.2.1
    ⟨0, "u1", rtExpired, isoString 500⟩ (by decide) (by decide) rfl

/-! ### Claim C4 -/

/-- C4: a successful `refresh` performs no store write at all — the
resulting store is the input store, so in particular no ledger row or
blacklist entry is created, deleted or updated — and the same refresh
token value succeeds again on a second `refresh` call at any later
instant at which it has not yet expired (the store being unchanged, it
has not been revoked in between). -/
theorem c4_refresh_success_frame (cfg : Config) (s s2 : Store) (rt : Jwt)
    (tS tR : Nat) (a : Jwt) (e : Int)
    (h : refreshAccessToken cfg s rt tS tR = (s2, .success a e)) :
    s2 = s ∧ ∀ tS2 tR2 : Nat, (∀ p sec, rt = Jwt.signed p sec → tS2 < p.exp) →
      ∃ a2 e2, refreshAccessToken cfg s rt tS2 tR2 = (s, .success a2 e2) := by
  by_cases h1 : isTokenBlacklisted s rt
  · rw [refreshAccessToken_of_blacklisted cfg s rt tS tR h1] at h
    exact absurd (congrArg Prod.snd h) (by simp)
  · have h1f : isTokenBlacklisted s rt = false := by simpa using h1
    cases h2 : findRefreshToken s rt with
    | none =>
      rw [refresh_eq_of_unknown cfg s rt tS tR h1f h2] at h
      exact absurd (congrArg Prod.snd h) (by simp)
    | some r =>
      cases h3 : verifyJwt rt cfg.jwtRefreshSecret tS with
      | error q =>
        cases q with
        | tokenExpired =>
          rw [refresh_eq_of_expired cfg s rt tS tR r h1f h2 h3] at h
          exact absurd (congrArg Prod.snd h) (by simp)
        | jsonWebToken =>
          rw [refresh_eq_of_invalid cfg s rt tS tR r h1f h2 h3] at h
          exact absurd (congrArg Prod.snd h) (by simp)
      | ok p =>
        cases h4 : findById s p.userId with
        | none =>
          rw [refresh_eq_of_no_user cfg s rt tS tR r p h1f h2 h3 h4] at h
          exact absurd (congrArg Prod.snd h) (by simp)
        | some u =>
          rw [refresh_eq_of_success cfg s rt tS tR r p u h1f h2 h3 h4] at h
          obtain ⟨hrt, _⟩ := (verifyJwt_ok_iff rt cfg.jwtRefreshSecret tS p).mp h3
          refine ⟨(congrArg Prod.fst h).symm, ?_⟩
          intro tS2 tR2 hexp
          have hv2 : verifyJwt rt cfg.jwtRefreshSecret tS2 = .ok p :=
            (verifyJwt_ok_iff rt cfg.jwtRefreshSecret tS2 p).mpr
              ⟨hrt, hexp p cfg.jwtRefreshSecret hrt⟩
          exact ⟨_, _, refresh_eq_of_success cfg s rt tS2 tR2 r p u h1f h2 hv2 h4⟩

/-- Witness for C4: a live refresh token succeeds at second 600,
changes nothing, and by the theorem succeeds again at second 700. -/
theorem c4_witness :
    ∃ a2 e2, refreshAccessToken cfg0
      ⟨[u0], [⟨0, "u1", Jwt.signed ⟨"u1", "a@b.com", 0, 604800⟩ "refresh-secret",
        isoString 604800⟩], [], 1⟩
      (Jwt.signed ⟨"u1", "a@b.com", 0, 604800⟩ "refresh-secret") 700 700 =
      (⟨[u0], [⟨0, "u1", Jwt.signed ⟨"u1", "a@b.com", 0, 604800⟩ "refresh-secret",
        isoString 604800⟩], [], 1⟩, .success a2 e2) :=
  (c4_refresh_success_frame cfg0
    ⟨[u0], [⟨0, "u1", Jwt.signed ⟨"u1", "a@b.com", 0, 604800⟩ "refresh-secret",
      isoString 604800⟩], [], 1⟩
    ⟨[u0], [⟨0, "u1", Jwt.signed ⟨"u1", "a@b.com", 0, 604800⟩ "refresh-secret",
      isoString 604800⟩], [], 1⟩
    (Jwt.signed ⟨"u1", "a@b.com", 0, 604800⟩ "refresh-secret") 600 600
    (generateAccessToken cfg0 "u1" "a@b.com" 600) 900 (by decide)).2 700 700
    (by intro p sec hp; injection hp with h1 h2; rw [← h1]; decide)

/-! ### Claim C6 -/

/-- C6: logging out while presenting a refresh token whose ledger row
belongs to a different user deletes no ledger row and creates no
blacklist entry for that refresh token — the store change is exactly
the unconditional blacklisting of the authenticating access token — and
the call still succeeds; a store where the refresh token is absent
produces a result of the very same shape, so the caller cannot
distinguish the two cases. -/
theorem c6_logout_foreign_refresh_untouched (cfg : Config) (s : Store) (A : Jwt)
    (p : Payload) (uid : String) (rt : Jwt) (r : RefreshTokenRecord) (now : Nat)
    (hd : decodeToken A = some p)
    (hf : findRefreshToken s rt = some r) (hu : r.userId ≠ uid) :
    logout cfg s A uid (some rt) now =
      (blacklistToken s A (isoString p.exp), .success) ∧
    ∀ s3 : Store, findRefreshToken s3 rt = none →
      logout cfg s3 A uid (some rt) now =
        (blacklistToken s3 A (isoString p.exp), .success) := by
  constructor
  · unfold logout
    rw [hd]
    simp [hf, hu]
  · intro s3 h3
    unfold logout
    rw [hd]
    simp [h3]

/-- Fixture: a store where the only ledger row belongs to user `u2`,
not to the seeded caller `u1`. -/
def sForeign : Store :=
  ⟨[u0], [⟨0, "u2", Jwt.signed ⟨"u2", "c@d.com", 0, 604800⟩ "refresh-secret",
    isoString 604800⟩], [], 1⟩

/-- Witness for C6: `u1` logging out while presenting `u2`'s refresh
token only blacklists the access token and succeeds. -/
theorem c6_witness :
    logout cfg0 sForeign (Jwt.signed ⟨"u1", "a@b.com", 100, 1000⟩ "access-secret") "u1"
      (some (Jwt.signed ⟨"u2", "c@d.com", 0, 604800⟩ "refresh-secret")) 600 =
      (blacklistToken sForeign (Jwt.signed ⟨"u1", "a@b.com", 100, 1000⟩ "access-secret")
        (isoString 1000), .success) :=
  (c6_logout_foreign_refresh_untouched cfg0 sForeign
    (Jwt.signed ⟨"u1", "a@b.com", 100, 1000⟩ "access-secret") ⟨"u1", "a@b.com", 100, 1000⟩
    "u1" (Jwt.signed ⟨"u2", "c@d.com", 0, 604800⟩ "refresh-secret")
    ⟨0, "u2", Jwt.signed ⟨"u2", "c@d.com", 0, 604800⟩ "refresh-secret", isoString 604800⟩
    600 rfl (by decide) (by decide)).1

/-! ### Claim C2 -/

/-- Fixture: the store after a login at second 1000 followed by a
logout at the same second presenting both tokens.  The logout
blacklisted the literal access-token string minted at second 1000. -/
def sAfterLogout : Store :=
  (logout cfg0 (login cfg0 s0 u0 1000 1000).1
    (login cfg0 s0 u0 1000 1000).2.accessToken "u1"
    (some (login cfg0 s0 u0 1000 1000).2.refreshToken) 1000).1

/-- Counterexample to C2 as stated: `u0` is present (resolvable by id)
in the reachable store `sAfterLogout`, yet logging in again within the
same second mints the byte-identical access token that the logout just
blacklisted, so the immediate `authenticateAccessToken` call answers
`BlacklistedToken` instead of succeeding. -/
theorem c2_counterexample :
    findById sAfterLogout u0.id = some u0 ∧
    authenticate cfg0 (login cfg0 sAfterLogout u0 1000 1000).1
      (login cfg0 sAfterLogout u0 1000 1000).2.accessToken 1000 = .blacklisted :=
  ⟨by decide, by decide⟩

/-- C2 (amended): for every user resolvable by its own id in the store,
if the freshly minted access-token string is not already present in the
blacklist, then a successful login followed by
`authenticateAccessToken` on the returned access token — at any instant
before the token's expiry — succeeds with exactly the password-stripped
user and the exact raw token that was presented. -/
theorem c2_login_roundtrip_amended (cfg : Config) (s : Store) (u : DbUser)
    (tS tR tAuth : Nat)
    (hu : findById s u.id = some u)
    (hb : isTokenBlacklisted s (generateAccessToken cfg u.id u.email tS) = false)
    (hexp : tAuth < tS + cfg.accessDuration) :
    authenticate cfg (login cfg s u tS tR).1
      (login cfg s u tS tR).2.accessToken tAuth =
      .success (formatUser u) ((login cfg s u tS tR).2.accessToken) := by
  have hv : verifyJwt (generateAccessToken cfg u.id u.email tS) cfg.jwtSecret tAuth =
      .ok ⟨u.id, u.email, tS, tS + cfg.accessDuration⟩ :=
    (verifyJwt_ok_iff _ cfg.jwtSecret tAuth _).mpr ⟨rfl, hexp⟩
  show authenticate cfg
      (createRefreshToken s u.id (generateRefreshToken cfg u.id u.email tS)
        (isoString (getTokenExpiration cfg.refreshDuration tS)))
      (generateAccessToken cfg u.id u.email tS) tAuth = _
  unfold authenticate
  rw [isTokenBlacklisted_createRefreshToken, hb]
  simp only [hv, hu, Bool.false_eq_true, if_false, findById_createRefreshToken]
  rfl

/-- Witness for C2's amended round trip: the seeded user logs in to the
fresh store at second 1000 and the access token authenticates at second
1500. -/
theorem c2_witness :
    authenticate cfg0 (login cfg0 s0 u0 1000 1000).1
      (login cfg0 s0 u0 1000 1000).2.accessToken 1500 =
      .success (formatUser u0) ((login cfg0 s0 u0 1000 1000).2.accessToken) :=
  c2_login_roundtrip_amended cfg0 s0 u0 1000 1000 1500 (by decide) (by decide) (by decide)

/-! ### Claim C5 -/

/-- C5: every successful login appends exactly one ledger row for the
freshly minted refresh token, and that row's stored `expiresAt` is the
rendering of the expiry claim embedded in the refresh token itself. -/
theorem c5_login_persists_token_expiry (cfg : Config) (s : Store) (u : DbUser)
    (tS tR : Nat) :
    ∃ r p, ((login cfg s u tS tR).1).refreshTokens = s.refreshTokens ++ [r] ∧
      r.token = (login cfg s u tS tR).2.refreshToken ∧
      decodeToken ((login cfg s u tS tR).2.refreshToken) = some p ∧
      r.expiresAt = isoString p.exp :=
  ⟨⟨s.freshId, u.id, generateRefreshToken cfg u.id u.email tS,
      isoString (tS + cfg.refreshDuration)⟩,
    ⟨u.id, u.email, tS, tS + cfg.refreshDuration⟩, rfl, rfl, rfl, rfl⟩

/-- Witness for C5: the login of the seeded user at second 1000. -/
theorem c5_witness :
    ∃ r p, ((login cfg0 s0 u0 1000 1000).1).refreshTokens = s0.refreshTokens ++ [r] ∧
      r.token = (login cfg0 s0 u0 1000 1000).2.refreshToken ∧
      decodeToken ((login cfg0 s0 u0 1000 1000).2.refreshToken) = some p ∧
      r.expiresAt = isoString p.exp :=
  c5_login_persists_token_expiry cfg0 s0 u0 1000 1000

/-! ### Claim C7 -/

theorem logout_refreshTokens_sublist (cfg : Config) (s : Store) (A : Jwt)
    (uid : String) (rtOpt : Option Jwt) (now : Nat) :
    List.Sublist ((logout cfg s A uid rtOpt now).1).refreshTokens s.refreshTokens := by
  unfold logout
  cases hd : decodeToken A with
  | none => exact List.Sublist.refl _
  | some p =>
    cases rtOpt with
    | none => exact List.Sublist.refl _
    | some rt =>
      cases hf : findRefreshToken s rt with
      | none => simp [hf]
      | some r =>
        by_cases hu : r.userId = uid
        · cases hv : verifyJwt rt cfg.jwtRefreshSecret now with
          | ok q =>
            simp only [findRefreshToken_blacklistToken, hf, hu, if_true, hv,
              refreshTokens_blacklistToken]
            exact List.filter_sublist _
          | error q =>
            simp only [findRefreshToken_blacklistToken, hf, hu, if_true, hv,
              refreshTokens_blacklistToken]
            exact List.filter_sublist _
        · simp [hf, hu]

theorem refresh_refreshTokens_sublist (cfg : Config) (s : Store) (rt : Jwt)
    (tS tR : Nat) :
    List.Sublist ((refreshAccessToken cfg s rt tS tR).1).refreshTokens s.refreshTokens := by
  by_cases h1 : isTokenBlacklisted s rt
  · rw [refreshAccessToken_of_blacklisted cfg s rt tS tR h1]
  · have h1f : isTokenBlacklisted s rt = false := by simpa using h1
    cases h2 : findRefreshToken s rt with
    | none => rw [refresh_eq_of_unknown cfg s rt tS tR h1f h2]
    | some r =>
      cases h3 : verifyJwt rt cfg.jwtRefreshSecret tS with
      | error q =>
        cases q with
        | tokenExpired =>
          rw [refresh_eq_of_expired cfg s rt tS tR r h1f h2 h3]
          exact List.filter_sublist _
        | jsonWebToken => rw [refresh_eq_of_invalid cfg s rt tS tR r h1f h2 h3]
      | ok p =>
        cases h4 : findById s p.userId with
        | none => rw [refresh_eq_of_no_user cfg s rt tS tR r p h1f h2 h3 h4]
        | some u => rw [refresh_eq_of_success cfg s rt tS tR r p u h1f h2 h3 h4]

/-- Counterexample to C7 as stated: from the reachable, invariant-
satisfying store produced by one login of the seeded user at second
100, a second login of the same user within the same clock second mints
the byte-identical refresh-token string (deterministic signing, same
payload and issued-at second) and inserts a second ledger row with that
same literal token value — `refresh_tokens.token` carries no UNIQUE
constraint — breaking the at-most-one-row-per-token invariant. -/
theorem c7_counterexample :
    atMostOnePerToken ((login cfg0 s0 u0 100 100).1).refreshTokens ∧
    ¬ atMostOnePerToken
        ((login cfg0 (login cfg0 s0 u0 100 100).1 u0 100 100).1).refreshTokens :=
  ⟨by decide, by decide⟩

/-- C7 (amended): the deletion paths — `deleteRefreshToken` itself,
logout, and refresh (whose only ledger write is the expired-token
delete) — preserve the at-most-one-row-per-token ledger invariant
unconditionally; creation on login preserves it only under the proviso
that the freshly minted refresh-token value is not already in the
ledger, a proviso the code does not enforce (a repeat login by the same
user within the same clock second violates it). -/
theorem c7_ledger_uniqueness_amended (cfg : Config) (s : Store)
    (hinv : atMostOnePerToken s.refreshTokens) :
    (∀ t, atMostOnePerToken (deleteRefreshToken s t).refreshTokens) ∧
    (∀ A uid rtOpt now,
      atMostOnePerToken ((logout cfg s A uid rtOpt now).1).refreshTokens) ∧
    (∀ rt tS tR,
      atMostOnePerToken ((refreshAccessToken cfg s rt tS tR).1).refreshTokens) ∧
    (∀ u tS tR,
      (∀ r ∈ s.refreshTokens, r.token ≠ generateRefreshToken cfg u.id u.email tS) →
      atMostOnePerToken ((login cfg s u tS tR).1).refreshTokens) := by
  unfold atMostOnePerToken at *
  refine ⟨?_, ?_, ?_, ?_⟩
  · intro t
    exact hinv.sublist (List.filter_sublist _)
  · intro A uid rtOpt now
    exact hinv.sublist (logout_refreshTokens_sublist cfg s A uid rtOpt now)
  · intro rt tS tR
    exact hinv.sublist (refresh_refreshTokens_sublist cfg s rt tS tR)
  · intro u tS tR hfresh
    show List.Pairwise (fun a b => a.token ≠ b.token)
      (s.refreshTokens ++
        ([⟨s.freshId, u.id, generateRefreshToken cfg u.id u.email tS,
          isoString (getTokenExpiration cfg.refreshDuration tS)⟩] :
          List RefreshTokenRecord))
    rw [List.pairwise_append]
    refine ⟨hinv, List.pairwise_singleton _ _, ?_⟩
    intro a ha b hb
    rw [List.mem_singleton] at hb
    subst hb
    exact hfresh a ha

/-- Witness for C7's amended invariant preservation: deleting from,
logging out of, refreshing against, and freshly logging in to the
one-row store `sExpired` all keep the ledger duplicate-free. -/
theorem c7_witness :
    atMostOnePerToken (deleteRefreshToken sExpired rtExpired).refreshTokens ∧
    atMostOnePerToken ((login cfg0 sExpired u0 999 999).1).refreshTokens :=
  ⟨(c7_ledger_uniqueness_amended cfg0 sExpired (by decide)).1 rtExpired,
    (c7_ledger_uniqueness_amended cfg0 sExpired (by decide)).2.2.2 u0 999 999
      (by decide)⟩

/-! ### Claim C8 -/

/-- Fixture: both ledger tables hold one row whose `expiresAt` is
second 1718438400, i.e. 2024-06-15T08:00:00Z, stored as the ISO string
the source writes. -/
def sSameDay : Store :=
  ⟨[], [⟨0, "u1", Jwt.malformed "rt", isoString 1718438400⟩],
    [⟨1, Jwt.malformed "at", isoString 1718438400⟩], 2⟩

/-- C8 is violated by the code: the rows of `sSameDay` expired four
hours before the sweep instant (second 1718452800, 2024-06-15 12:00:00
UTC), yet one sweeper run deletes neither row, because the stored
`toISOString` value `2024-06-15T08:00:00.000Z` compares lexicographically
above SQLite's `datetime("now")` string `2024-06-15 12:00:00` (the date
prefixes agree and `T` sorts above the space).  Only a sweep on a later
UTC day (here 24 hours later) removes the rows. -/
theorem c8_sweeper_misses_same_day_expired :
    (1718438400 : Nat) < 1718452800 ∧
    isoString 1718438400 = "2024-06-15T08:00:00.000Z" ∧
    sqliteNowString 1718452800 = "2024-06-15 12:00:00" ∧
    cleanupExpiredTokens sSameDay 1718452800 = sSameDay ∧
    (cleanupExpiredTokens sSameDay 1718539200).refreshTokens = [] ∧
    (cleanupExpiredTokens sSameDay 1718539200).blacklist = [] :=
  ⟨by decide, by decide, by decide, by decide, by decide, by decide⟩

/-! ### Claim C9 -/

theorem refresh_success_expiresIn (cfg : Config) (s s2 : Store) (rt : Jwt)
    (tS tR : Nat) (a : Jwt) (e : Int)
    (h : refreshAccessToken cfg s rt tS tR = (s2, .success a e)) :
    ∃ p, decodeToken a = some p ∧ p.exp = tS + cfg.accessDuration ∧
      e = ((tS + cfg.accessDuration : Nat) : Int) - (tR : Int) := by
  by_cases h1 : isTokenBlacklisted s rt
  · rw [refreshAccessToken_of_blacklisted cfg s rt tS tR h1] at h
    exact absurd (congrArg Prod.snd h) (by simp)
  · have h1f : isTokenBlacklisted s rt = false := by simpa using h1
    cases h2 : findRefreshToken s rt with
    | none =>
      rw [refresh_eq_of_unknown cfg s rt tS tR h1f h2] at h
      exact absurd (congrArg Prod.snd h) (by simp)
    | some r =>
      cases h3 : verifyJwt rt cfg.jwtRefreshSecret tS with
      | error q =>
        cases q with
        | tokenExpired =>
          rw [refresh_eq_of_expired cfg s rt tS tR r h1f h2 h3] at h
          exact absurd (congrArg Prod.snd h) (by simp)
        | jsonWebToken =>
          rw [refresh_eq_of_invalid cfg s rt tS tR r h1f h2 h3] at h
          exact absurd (congrArg Prod.snd h) (by simp)
      | ok p =>
        cases h4 : findById s p.userId with
        | none =>
          rw [refresh_eq_of_no_user cfg s rt tS tR r p h1f h2 h3 h4] at h
          exact absurd (congrArg Prod.snd h) (by simp)
        | some w =>
          rw [refresh_eq_of_success cfg s rt tS tR r p w h1f h2 h3 h4] at h
          have hsnd := congrArg Prod.snd h
          injection hsnd with ha he
          subst ha
          exact ⟨⟨w.id, w.email, tS, tS + cfg.accessDuration⟩, rfl, rfl, he.symm⟩

/-- C9: on both successful issue (login) and successful refresh, the
returned `expiresIn` is the minted access token's embedded expiry claim
minus the `Date.now()` read, in whole seconds; with the 15-minute
default access duration and at most one second of clock advance between
mint and read, the value is 900 or 899 — within the claimed ±1 of
900. -/
theorem c9_expires_in_bounds (cfg : Config) (s : Store) (u : DbUser)
    (tS tR : Nat) (hmono : tS ≤ tR) (hskew : tR ≤ tS + 1) :
    (∃ p, decodeToken ((login cfg s u tS tR).2.accessToken) = some p ∧
      (login cfg s u tS tR).2.expiresIn = (p.exp : Int) - (tR : Int)) ∧
    (cfg.accessDuration = 900 →
      899 ≤ (login cfg s u tS tR).2.expiresIn ∧
      (login cfg s u tS tR).2.expiresIn ≤ 900) ∧
    (∀ s2 s3 : Store, ∀ rt a : Jwt, ∀ e : Int,
      refreshAccessToken cfg s2 rt tS tR = (s3, .success a e) →
      (∃ p, decodeToken a = some p ∧ e = (p.exp : Int) - (tR : Int)) ∧
      (cfg.accessDuration = 900 → 899 ≤ e ∧ e ≤ 900)) := by
  have hlogin : (login cfg s u tS tR).2.expiresIn =
      ((tS + cfg.accessDuration : Nat) : Int) - (tR : Int) := rfl
  refine ⟨⟨⟨u.id, u.email, tS, tS + cfg.accessDuration⟩, rfl, rfl⟩, ?_, ?_⟩
  · intro hd
    rw [hlogin, hd]
    omega
  · intro s2 s3 rt a e h
    obtain ⟨p, hdec, hexp, he⟩ := refresh_success_expiresIn cfg s2 s3 rt tS tR a e h
    refine ⟨⟨p, hdec, ?_⟩, ?_⟩
    · rw [he, hexp]
    · intro hd
      rw [he, hd]
      omega

/-- Witness for C9: the login of the seeded user signing at second 1000
with the `expiresIn` clock read one second later yields 899, inside the
claimed bounds. -/
theorem c9_witness :
    899 ≤ (login cfg0 s0 u0 1000 1001).2.expiresIn ∧
    (login cfg0 s0 u0 1000 1001).2.expiresIn ≤ 900 :=
  (c9_expires_in_bounds cfg0 s0 u0 1000 1001 (by decide) (by decide)).2.1 rfl
